import Mathlib

/-!
Shallow embedding of the validate-then-load data pipeline in
src/Sesion3/data_pipeline/pipeline.py, together with proofs of the
specification claims about its transformers and orchestrator.

Tables are lists of typed rows.  Numeric cells are `Int`, nullable cells
`Option`, and the fallible transformers return `Except ValidationFailed`,
mirroring the logging.error + sys.exit(1) hard-fail paths; the error value
carries the table name and the log message, as the specification's
`ValidationFailed` does.  The orchestrator `main` is embedded as `runTrace`,
which records the run as a list of read / transform / warn / fail / write
events in the exact order `main` performs them.
-/

namespace DataPipeline

/-- A row of the departments table. -/
structure DepartmentRow where
  department_id : Int
  department_name : String
  deriving DecidableEq

/-- A row of the categories table. -/
structure CategoryRow where
  category_id : Int
  category_department_id : Int
  deriving DecidableEq

/-- A row of the customers table; the three fields checked by the
transformer are nullable. -/
structure CustomerRow where
  customer_id : Int
  customer_email : Option String
  customer_fname : Option String
  customer_lname : Option String
  deriving DecidableEq

/-- A row of the products table. -/
structure ProductRow where
  product_id : Int
  product_category_id : Int
  deriving DecidableEq

/-- A raw order_date cell as read from the CSV: null, a string that
pd.to_datetime parses to a date (abstracted as the date value), or a
string it cannot parse. -/
inductive DateCell where
  | null : DateCell
  | valid : Nat → DateCell
  | invalid : String → DateCell
  deriving DecidableEq

/-- A row of the orders table as read from the CSV. -/
structure OrderRow where
  order_id : Int
  order_date : DateCell
  order_customer_id : Int
  deriving DecidableEq

/-- A row of the orders table after the order_date column has been run
through pd.to_datetime with errors set to coerce: the date is a value or
null. -/
structure OrderRowT where
  order_id : Int
  order_date : Option Nat
  order_customer_id : Int
  deriving DecidableEq

/-- A row of the order_items table. -/
structure OrderItemRow where
  order_item_order_id : Int
  order_item_product_id : Int
  order_item_quantity : Int
  order_item_product_price : Int
  order_item_subtotal : Int
  deriving DecidableEq

/-- The hard-fail error of the spec: table name plus the logged reason. -/
structure ValidationFailed where
  table : String
  reason : String
  deriving DecidableEq

/-- The row effect of pandas str.lower on the customer_email column:
null cells stay null. -/
def lowerEmail (r : CustomerRow) : CustomerRow :=
  { r with customer_email := r.customer_email.map String.toLower }

/-- pipeline.py line 48 and 50-52: lowercase customer_email in place, then
exit if any of the three required fields is null in any row. -/
def transform_customers (df : List CustomerRow) :
    Except ValidationFailed (List CustomerRow) :=
  let df2 := df.map lowerEmail
  if df2.any fun r => r.customer_fname.isNone || r.customer_lname.isNone ||
      r.customer_email.isNone then
    .error ⟨"customers", "Datos faltantes en el DataFrame de customers."⟩
  else
    .ok df2

/-- pandas Series.duplicated().any(): some value occurs more than once. -/
def duplicatedAny : List String → Bool
  | [] => false
  | x :: xs => xs.contains x || duplicatedAny xs

/-- pipeline.py lines 55-62: warn (second component true) when
department_name has duplicates; the table always passes through unchanged. -/
def transform_departments (df : List DepartmentRow) : List DepartmentRow × Bool :=
  (df, duplicatedAny (df.map DepartmentRow.department_name))

/-- pipeline.py lines 64-73: exit unless every category_department_id is in
the set of department_id values of the departments table. -/
def transform_categories (df : List CategoryRow) (departments_df : List DepartmentRow) :
    Except ValidationFailed (List CategoryRow) :=
  let valid_ids := departments_df.map DepartmentRow.department_id
  if df.all fun r => valid_ids.contains r.category_department_id then
    .ok df
  else
    .error ⟨"categories", "Hay category_department_id que no existen en departments."⟩

/-- pipeline.py lines 75-84: exit unless every product_category_id is in
the set of category_id values of the categories table. -/
def transform_products (df : List ProductRow) (categories_df : List CategoryRow) :
    Except ValidationFailed (List ProductRow) :=
  let valid_ids := categories_df.map CategoryRow.category_id
  if df.all fun r => valid_ids.contains r.product_category_id then
    .ok df
  else
    .error ⟨"products", "Hay product_category_id que no existen en categories."⟩

/-- pd.to_datetime with errors set to coerce on one cell: nulls stay null,
parseable strings become their date, unparseable strings become null. -/
def coerceDate : DateCell → Option Nat
  | .null => none
  | .valid d => some d
  | .invalid _ => none

/-- The row effect of the order_date coercion on line 91. -/
def coerceOrderRow (r : OrderRow) : OrderRowT :=
  ⟨r.order_id, coerceDate r.order_date, r.order_customer_id⟩

/-- pipeline.py lines 86-100: coerce order_date, exit if any is null after
coercion, then exit unless every order_customer_id is in the set of
customer_id values of the customers table. -/
def transform_orders (df : List OrderRow) (customers_df : List CustomerRow) :
    Except ValidationFailed (List OrderRowT) :=
  let df2 : List OrderRowT := df.map coerceOrderRow
  if df2.any fun r => r.order_date.isNone then
    .error ⟨"orders", "Hay valores inválidos en order_date."⟩
  else
    let valid_ids := customers_df.map CustomerRow.customer_id
    if df2.all fun r => valid_ids.contains r.order_customer_id then
      .ok df2
    else
      .error ⟨"orders", "Hay order_customer_id que no existen en customers."⟩

/-- The row effect of the whole-column subtotal overwrite on line 120. -/
def recomputeSubtotal (r : OrderItemRow) : OrderItemRow :=
  { r with order_item_subtotal := r.order_item_quantity * r.order_item_product_price }

/-- pipeline.py lines 102-121: referential checks against orders and
products, then recompute the whole order_item_subtotal column when any row
disagrees with quantity times price. -/
def transform_order_items (df : List OrderItemRow) (orders_df : List OrderRowT)
    (products_df : List ProductRow) : Except ValidationFailed (List OrderItemRow) :=
  let valid_order_ids := orders_df.map OrderRowT.order_id
  if df.all fun r => valid_order_ids.contains r.order_item_order_id then
    let valid_product_ids := products_df.map ProductRow.product_id
    if df.all fun r => valid_product_ids.contains r.order_item_product_id then
      if df.all fun r =>
          r.order_item_subtotal == r.order_item_quantity * r.order_item_product_price then
        .ok df
      else
        .ok (df.map recomputeSubtotal)
    else
      .error ⟨"order_items", "Hay order_item_product_id que no existen en products."⟩
  else
    .error ⟨"order_items", "Hay order_item_order_id que no existen en orders."⟩

/-- One observable step of a pipeline run. -/
inductive Event where
  | read : String → Event
  | transformed : String → Event
  | warned : String → Event
  | failed : ValidationFailed → Event
  | wrote : String → Event
  deriving DecidableEq

/-- The six source tables a run starts from. -/
structure PipelineInput where
  departments : List DepartmentRow
  categories : List CategoryRow
  customers : List CustomerRow
  products : List ProductRow
  orders : List OrderRow
  order_items : List OrderItemRow

/-- pipeline.py line 139: the fixed load order. -/
def load_order : List String :=
  ["departments", "categories", "customers", "products", "orders", "order_items"]

/-- The warning events logged while transforming departments (line 61):
one warning exactly when the duplicate check fired. -/
def warnEvents (b : Bool) : List Event :=
  if b then [Event.warned "departments"] else []

/-- pipeline.py main (lines 134-179) as an event trace: read and transform
each table in the fixed order, stopping at the first hard failure; only
when all six transforms succeed does the final loop write the tables, in
load_order. -/
def runTrace (inp : PipelineInput) : List Event :=
  let dep := transform_departments inp.departments
  let ev1 := [Event.read "departments"] ++ warnEvents dep.2 ++
    [Event.transformed "departments", Event.read "categories"]
  match transform_categories inp.categories dep.1 with
  | .error err => ev1 ++ [Event.failed err]
  | .ok categories_df =>
    let ev2 := ev1 ++ [Event.transformed "categories", Event.read "customers"]
    match transform_customers inp.customers with
    | .error err => ev2 ++ [Event.failed err]
    | .ok customers_df =>
      let ev3 := ev2 ++ [Event.transformed "customers", Event.read "products"]
      match transform_products inp.products categories_df with
      | .error err => ev3 ++ [Event.failed err]
      | .ok products_df =>
        let ev4 := ev3 ++ [Event.transformed "products", Event.read "orders"]
        match transform_orders inp.orders customers_df with
        | .error err => ev4 ++ [Event.failed err]
        | .ok orders_df =>
          let ev5 := ev4 ++ [Event.transformed "orders", Event.read "order_items"]
          match transform_order_items inp.order_items orders_df products_df with
          | .error err => ev5 ++ [Event.failed err]
          | .ok _ =>
            ev5 ++ [Event.transformed "order_items"] ++ load_order.map Event.wrote

/-- The names written by a trace, in order. -/
def writesOf (tr : List Event) : List String :=
  tr.filterMap fun e =>
    match e with
    | Event.wrote t => some t
    | _ => none

/-! Helper lemmas about lowercasing. -/

theorem char_toNat_ofNat_valid (n : Nat) (h : n.isValidChar) : (Char.ofNat n).toNat = n := by
  rw [Char.ofNat, dif_pos h]; rfl

theorem char_toLower_idem (c : Char) : c.toLower.toLower = c.toLower := by
  show Char.toLower (Char.toLower c) = Char.toLower c
  unfold Char.toLower
  by_cases h : c.toNat ≥ 65 ∧ c.toNat ≤ 90
  · rw [if_pos h]
    have hv : (c.toNat + 32).isValidChar := Or.inl (by omega)
    rw [char_toNat_ofNat_valid _ hv]
    rw [if_neg (by omega)]
  · rw [if_neg h, if_neg h]

theorem string_toLower_idem (s : String) : s.toLower.toLower = s.toLower := by
  show String.toLower (String.toLower s) = String.toLower s
  unfold String.toLower
  rw [String.map_eq, String.map_eq]
  simp [List.map_map, Function.comp_def, char_toLower_idem]

/-! Characterization lemmas for the transformers. -/

theorem transform_categories_eq_ok (df : List CategoryRow) (deps : List DepartmentRow)
    (h : ∀ r ∈ df, r.category_department_id ∈ deps.map DepartmentRow.department_id) :
    transform_categories df deps = .ok df := by
  unfold transform_categories
  rw [if_pos]
  rw [List.all_eq_true]
  intro r hr
  simpa using h r hr

theorem transform_categories_eq_error (df : List CategoryRow) (deps : List DepartmentRow)
    (h : ∃ r ∈ df, r.category_department_id ∉ deps.map DepartmentRow.department_id) :
    transform_categories df deps =
      .error ⟨"categories", "Hay category_department_id que no existen en departments."⟩ := by
  unfold transform_categories
  rw [if_neg]
  rw [List.all_eq_true]
  push_neg
  obtain ⟨r, hr, hmem⟩ := h
  exact ⟨r, hr, by simpa using hmem⟩

theorem transform_categories_error_elim (df : List CategoryRow) (deps : List DepartmentRow)
    (err : ValidationFailed) (h : transform_categories df deps = .error err) :
    err.table = "categories" := by
  simp only [transform_categories] at h
  split at h
  · exact absurd h (by simp)
  · cases h
    rfl

theorem transform_products_eq_ok (df : List ProductRow) (cats : List CategoryRow)
    (h : ∀ r ∈ df, r.product_category_id ∈ cats.map CategoryRow.category_id) :
    transform_products df cats = .ok df := by
  unfold transform_products
  rw [if_pos]
  rw [List.all_eq_true]
  intro r hr
  simpa using h r hr

theorem transform_products_error_elim (df : List ProductRow) (cats : List CategoryRow)
    (err : ValidationFailed) (h : transform_products df cats = .error err) :
    err.table = "products" := by
  simp only [transform_products] at h
  split at h
  · exact absurd h (by simp)
  · cases h
    rfl

theorem lowerEmail_passes_check (s : CustomerRow) (h1 : s.customer_fname.isSome = true)
    (h2 : s.customer_lname.isSome = true) (h3 : s.customer_email.isSome = true) :
    ((lowerEmail s).customer_fname.isNone || (lowerEmail s).customer_lname.isNone ||
      (lowerEmail s).customer_email.isNone) = false := by
  obtain ⟨a, ha⟩ := Option.isSome_iff_exists.mp h1
  obtain ⟨b, hb⟩ := Option.isSome_iff_exists.mp h2
  obtain ⟨c, hc⟩ := Option.isSome_iff_exists.mp h3
  simp [lowerEmail, ha, hb, hc]

theorem transform_customers_eq_ok (df : List CustomerRow)
    (h : ∀ r ∈ df, r.customer_fname.isSome ∧ r.customer_lname.isSome ∧
      r.customer_email.isSome) :
    transform_customers df = .ok (df.map lowerEmail) := by
  unfold transform_customers
  rw [if_neg]
  simp only [List.any_eq_true, List.mem_map, not_exists, not_and]
  rintro r ⟨s, hs, rfl⟩
  obtain ⟨h1, h2, h3⟩ := h s hs
  simp [lowerEmail_passes_check s h1 h2 h3]

theorem transform_customers_eq_error (df : List CustomerRow)
    (h : ∃ r ∈ df, r.customer_fname = none ∨ r.customer_lname = none ∨
      r.customer_email = none) :
    transform_customers df = .error ⟨"customers", "Datos faltantes en el DataFrame de customers."⟩ := by
  unfold transform_customers
  rw [if_pos]
  rw [List.any_eq_true]
  obtain ⟨r, hr, hc⟩ := h
  refine ⟨lowerEmail r, List.mem_map_of_mem lowerEmail hr, ?_⟩
  simp only [lowerEmail, Bool.or_eq_true, Option.isNone_iff_eq_none]
  rcases hc with hc | hc | hc
  · exact Or.inl (Or.inl hc)
  · exact Or.inl (Or.inr hc)
  · exact Or.inr (by rw [hc]; rfl)

theorem transform_customers_ok_elim (df out : List CustomerRow)
    (h : transform_customers df = .ok out) :
    out = df.map lowerEmail ∧
    ∀ r ∈ out, r.customer_fname.isSome ∧ r.customer_lname.isSome ∧
      r.customer_email.isSome := by
  simp only [transform_customers] at h
  split at h
  · exact absurd h (by simp)
  · cases h
    refine ⟨rfl, fun r hr => ?_⟩
    rename_i hall
    simp only [List.any_eq_true, not_exists, not_and] at hall
    have hfalse := hall r hr
    simp only [Bool.or_eq_true, not_or, Bool.not_eq_true,
      Option.isNone_eq_false_iff] at hfalse
    exact ⟨hfalse.1.1, hfalse.1.2, hfalse.2⟩

theorem transform_customers_error_elim (df : List CustomerRow)
    (err : ValidationFailed) (h : transform_customers df = .error err) :
    err.table = "customers" := by
  simp only [transform_customers] at h
  split at h
  · cases h
    rfl
  · exact absurd h (by simp)

theorem transform_orders_eq_error_date (df : List OrderRow) (cust : List CustomerRow)
    (h : ∃ r ∈ df, coerceDate r.order_date = none) :
    transform_orders df cust = .error ⟨"orders", "Hay valores inválidos en order_date."⟩ := by
  unfold transform_orders
  rw [if_pos]
  rw [List.any_eq_true]
  obtain ⟨r, hr, hnone⟩ := h
  exact ⟨coerceOrderRow r, List.mem_map_of_mem coerceOrderRow hr,
    by simp [coerceOrderRow, hnone]⟩

theorem transform_orders_eq_ok (df : List OrderRow) (cust : List CustomerRow)
    (hdate : ∀ r ∈ df, (coerceDate r.order_date).isSome)
    (hcust : ∀ r ∈ df, r.order_customer_id ∈ cust.map CustomerRow.customer_id) :
    transform_orders df cust = .ok (df.map coerceOrderRow) := by
  unfold transform_orders
  rw [if_neg, if_pos]
  · rw [List.all_eq_true]
    simp only [List.mem_map]
    rintro r ⟨s, hs, rfl⟩
    simpa [coerceOrderRow] using hcust s hs
  · simp only [List.any_eq_true, List.mem_map, not_exists, not_and]
    rintro r ⟨s, hs, rfl⟩
    simp only [coerceOrderRow, Option.isNone_iff_eq_none]
    exact Option.isSome_iff_ne_none.mp (hdate s hs)

theorem transform_orders_eq_error_cust (df : List OrderRow) (cust : List CustomerRow)
    (hdate : ∀ r ∈ df, (coerceDate r.order_date).isSome)
    (h : ∃ r ∈ df, r.order_customer_id ∉ cust.map CustomerRow.customer_id) :
    transform_orders df cust =
      .error ⟨"orders", "Hay order_customer_id que no existen en customers."⟩ := by
  unfold transform_orders
  rw [if_neg, if_neg]
  · rw [List.all_eq_true]
    simp only [List.mem_map, not_forall]
    obtain ⟨r, hr, hmem⟩ := h
    exact ⟨coerceOrderRow r, ⟨⟨r, hr, rfl⟩, by simpa [coerceOrderRow] using hmem⟩⟩
  · simp only [List.any_eq_true, List.mem_map, not_exists, not_and]
    rintro r ⟨s, hs, rfl⟩
    simp only [coerceOrderRow, Option.isNone_iff_eq_none]
    exact Option.isSome_iff_ne_none.mp (hdate s hs)

theorem transform_orders_error_elim (df : List OrderRow) (cust : List CustomerRow)
    (err : ValidationFailed) (h : transform_orders df cust = .error err) :
    err.table = "orders" := by
  simp only [transform_orders] at h
  split at h
  · cases h; rfl
  · split at h
    · exact absurd h (by simp)
    · cases h; rfl

theorem transform_order_items_eq_error_order (df : List OrderItemRow)
    (ords : List OrderRowT) (prods : List ProductRow)
    (h : ∃ r ∈ df, r.order_item_order_id ∉ ords.map OrderRowT.order_id) :
    transform_order_items df ords prods =
      .error ⟨"order_items", "Hay order_item_order_id que no existen en orders."⟩ := by
  unfold transform_order_items
  rw [if_neg]
  rw [List.all_eq_true]
  push_neg
  obtain ⟨r, hr, hmem⟩ := h
  exact ⟨r, hr, by simpa using hmem⟩

theorem transform_order_items_eq_error_product (df : List OrderItemRow)
    (ords : List OrderRowT) (prods : List ProductRow)
    (hord : ∀ r ∈ df, r.order_item_order_id ∈ ords.map OrderRowT.order_id)
    (h : ∃ r ∈ df, r.order_item_product_id ∉ prods.map ProductRow.product_id) :
    transform_order_items df ords prods =
      .error ⟨"order_items", "Hay order_item_product_id que no existen en products."⟩ := by
  unfold transform_order_items
  rw [if_pos, if_neg]
  · rw [List.all_eq_true]
    push_neg
    obtain ⟨r, hr, hmem⟩ := h
    exact ⟨r, hr, by simpa using hmem⟩
  · rw [List.all_eq_true]
    intro r hr
    simpa using hord r hr

theorem transform_order_items_eq_ok_match (df : List OrderItemRow)
    (ords : List OrderRowT) (prods : List ProductRow)
    (hord : ∀ r ∈ df, r.order_item_order_id ∈ ords.map OrderRowT.order_id)
    (hprod : ∀ r ∈ df, r.order_item_product_id ∈ prods.map ProductRow.product_id)
    (hsub : ∀ r ∈ df, r.order_item_subtotal =
      r.order_item_quantity * r.order_item_product_price) :
    transform_order_items df ords prods = .ok df := by
  unfold transform_order_items
  rw [if_pos, if_pos, if_pos]
  · rw [List.all_eq_true]
    intro r hr
    simpa using hsub r hr
  · rw [List.all_eq_true]
    intro r hr
    simpa using hprod r hr
  · rw [List.all_eq_true]
    intro r hr
    simpa using hord r hr

theorem transform_order_items_eq_ok_recompute (df : List OrderItemRow)
    (ords : List OrderRowT) (prods : List ProductRow)
    (hord : ∀ r ∈ df, r.order_item_order_id ∈ ords.map OrderRowT.order_id)
    (hprod : ∀ r ∈ df, r.order_item_product_id ∈ prods.map ProductRow.product_id)
    (hsub : ∃ r ∈ df, r.order_item_subtotal ≠
      r.order_item_quantity * r.order_item_product_price) :
    transform_order_items df ords prods = .ok (df.map recomputeSubtotal) := by
  unfold transform_order_items
  rw [if_pos, if_pos, if_neg]
  · rw [List.all_eq_true]
    push_neg
    obtain ⟨r, hr, hne⟩ := hsub
    exact ⟨r, hr, by simpa using hne⟩
  · rw [List.all_eq_true]
    intro r hr
    simpa using hprod r hr
  · rw [List.all_eq_true]
    intro r hr
    simpa using hord r hr

theorem transform_order_items_ok_elim (df : List OrderItemRow)
    (ords : List OrderRowT) (prods : List ProductRow) (out : List OrderItemRow)
    (h : transform_order_items df ords prods = .ok out) :
    ∀ r ∈ out, r.order_item_subtotal =
      r.order_item_quantity * r.order_item_product_price := by
  simp only [transform_order_items] at h
  split at h
  · split at h
    · split at h
      · cases h
        rename_i hall _ _
        intro r hr
        rename_i hmatch
        rw [List.all_eq_true] at hmatch
        simpa using hmatch r hr
      · cases h
        intro r hr
        simp only [List.mem_map] at hr
        obtain ⟨s, hs, rfl⟩ := hr
        simp [recomputeSubtotal]
    · exact absurd h (by simp)
  · exact absurd h (by simp)

theorem transform_order_items_error_elim (df : List OrderItemRow)
    (ords : List OrderRowT) (prods : List ProductRow)
    (err : ValidationFailed) (h : transform_order_items df ords prods = .error err) :
    err.table = "order_items" := by
  simp only [transform_order_items] at h
  split at h
  · split at h
    · split at h <;> exact absurd h (by simp)
    · cases h; rfl
  · cases h; rfl

theorem wrote_not_mem_warnEvents (t : String) (b : Bool) :
    Event.wrote t ∉ warnEvents b := by
  cases b <;> simp [warnEvents]

theorem failed_not_mem_warnEvents (e : ValidationFailed) (b : Bool) :
    Event.failed e ∉ warnEvents b := by
  cases b <;> simp [warnEvents]

/-- Shape of every run: either some transformer hard-failed, the trace ends
at that failure and contains no write, or all six transforms succeeded and
the trace is a write-free prefix containing all six transform events,
followed by the writes of load_order. -/
theorem runTrace_shape (inp : PipelineInput) :
    (∃ pre err, runTrace inp = pre ++ [Event.failed err] ∧
      (∀ t, Event.wrote t ∉ pre) ∧
      (∀ e, Event.failed e ∉ pre) ∧
      err.table ≠ "departments") ∨
    (∃ pre categories_df customers_df products_df orders_df order_items_df,
      runTrace inp = pre ++ load_order.map Event.wrote ∧
      (∀ t, Event.wrote t ∉ pre) ∧
      (∀ e, Event.failed e ∉ pre) ∧
      (∀ t ∈ load_order, Event.transformed t ∈ pre) ∧
      transform_categories inp.categories inp.departments = .ok categories_df ∧
      transform_customers inp.customers = .ok customers_df ∧
      transform_products inp.products categories_df = .ok products_df ∧
      transform_orders inp.orders customers_df = .ok orders_df ∧
      transform_order_items inp.order_items orders_df products_df = .ok order_items_df) := by
  rcases hcat : transform_categories inp.categories (transform_departments inp.departments).1
    with err | categories_df
  · left
    refine ⟨[Event.read "departments"] ++ warnEvents (transform_departments inp.departments).2 ++
      [Event.transformed "departments", Event.read "categories"], err, ?_, ?_, ?_, ?_⟩
    · simp [runTrace, hcat]
    · intro t
      simp [wrote_not_mem_warnEvents]
    · intro e
      simp [failed_not_mem_warnEvents]
    · rw [transform_categories_error_elim _ _ _ hcat]
      decide
  · rcases hcus : transform_customers inp.customers with err | customers_df
    · left
      refine ⟨[Event.read "departments"] ++ warnEvents (transform_departments inp.departments).2 ++
        [Event.transformed "departments", Event.read "categories",
         Event.transformed "categories", Event.read "customers"], err, ?_, ?_, ?_, ?_⟩
      · simp [runTrace, hcat, hcus]
      · intro t
        simp [wrote_not_mem_warnEvents]
      · intro e
        simp [failed_not_mem_warnEvents]
      · rw [transform_customers_error_elim _ _ hcus]
        decide
    · rcases hprodt : transform_products inp.products categories_df with err | products_df
      · left
        refine ⟨[Event.read "departments"] ++
          warnEvents (transform_departments inp.departments).2 ++
          [Event.transformed "departments", Event.read "categories",
           Event.transformed "categories", Event.read "customers",
           Event.transformed "customers", Event.read "products"], err, ?_, ?_, ?_, ?_⟩
        · simp [runTrace, hcat, hcus, hprodt]
        · intro t
          simp [wrote_not_mem_warnEvents]
        · intro e
          simp [failed_not_mem_warnEvents]
        · rw [transform_products_error_elim _ _ _ hprodt]
          decide
      · rcases hords : transform_orders inp.orders customers_df with err | orders_df
        · left
          refine ⟨[Event.read "departments"] ++
            warnEvents (transform_departments inp.departments).2 ++
            [Event.transformed "departments", Event.read "categories",
             Event.transformed "categories", Event.read "customers",
             Event.transformed "customers", Event.read "products",
             Event.transformed "products", Event.read "orders"], err, ?_, ?_, ?_, ?_⟩
          · simp [runTrace, hcat, hcus, hprodt, hords]
          · intro t
            simp [wrote_not_mem_warnEvents]
          · intro e
            simp [failed_not_mem_warnEvents]
          · rw [transform_orders_error_elim _ _ _ hords]
            decide
        · rcases hoi : transform_order_items inp.order_items orders_df products_df
            with err | order_items_df
          · left
            refine ⟨[Event.read "departments"] ++
              warnEvents (transform_departments inp.departments).2 ++
              [Event.transformed "departments", Event.read "categories",
               Event.transformed "categories", Event.read "customers",
               Event.transformed "customers", Event.read "products",
               Event.transformed "products", Event.read "orders",
               Event.transformed "orders", Event.read "order_items"], err, ?_, ?_, ?_, ?_⟩
            · simp [runTrace, hcat, hcus, hprodt, hords, hoi]
            · intro t
              simp [wrote_not_mem_warnEvents]
            · intro e
              simp [failed_not_mem_warnEvents]
            · rw [transform_order_items_error_elim _ _ _ _ hoi]
              decide
          · right
            refine ⟨[Event.read "departments"] ++
              warnEvents (transform_departments inp.departments).2 ++
              [Event.transformed "departments", Event.read "categories",
               Event.transformed "categories", Event.read "customers",
               Event.transformed "customers", Event.read "products",
               Event.transformed "products", Event.read "orders",
               Event.transformed "orders", Event.read "order_items",
               Event.transformed "order_items"],
              categories_df, customers_df, products_df, orders_df, order_items_df,
              ?_, ?_, ?_, ?_, hcat, rfl, hprodt, hords, hoi⟩
            · simp [runTrace, hcat, hcus, hprodt, hords, hoi]
            · intro t
              simp [wrote_not_mem_warnEvents]
            · intro e
              simp [failed_not_mem_warnEvents]
            · intro t ht
              simp only [load_order, List.mem_cons, List.not_mem_nil, or_false] at ht
              rcases ht with rfl | rfl | rfl | rfl | rfl | rfl <;> simp

/-- Whether an event is a hard failure. -/
def isFailedEv : Event → Bool
  | .failed _ => true
  | _ => false

theorem writesOf_eq_nil (l : List Event) (h : ∀ t, Event.wrote t ∉ l) :
    writesOf l = [] := by
  rw [writesOf, List.filterMap_eq_nil_iff]
  intro e he
  cases e with
  | wrote t => exact absurd he (h t)
  | read t => rfl
  | transformed t => rfl
  | warned t => rfl
  | failed err => rfl

theorem writesOf_map_wrote (l : List String) : writesOf (l.map Event.wrote) = l := by
  induction l with
  | nil => rfl
  | cons x xs ih =>
    simp only [List.map_cons, writesOf, List.filterMap_cons] at ih ⊢
    rw [ih]

theorem warned_mem_runTrace (inp : PipelineInput)
    (hw : duplicatedAny (inp.departments.map DepartmentRow.department_name) = true) :
    Event.warned "departments" ∈ runTrace inp := by
  have h2 : (transform_departments inp.departments).2 = true := hw
  rcases hcat : transform_categories inp.categories (transform_departments inp.departments).1
    with err | categories_df
  · simp [runTrace, hcat, warnEvents, h2]
  · rcases hcus : transform_customers inp.customers with err | customers_df
    · simp [runTrace, hcat, hcus, warnEvents, h2]
    · rcases hprodt : transform_products inp.products categories_df with err | products_df
      · simp [runTrace, hcat, hcus, hprodt, warnEvents, h2]
      · rcases hords : transform_orders inp.orders customers_df with err | orders_df
        · simp [runTrace, hcat, hcus, hprodt, hords, warnEvents, h2]
        · rcases hoi : transform_order_items inp.order_items orders_df products_df
            with err | oi
          · simp [runTrace, hcat, hcus, hprodt, hords, hoi, warnEvents, h2]
          · simp [runTrace, hcat, hcus, hprodt, hords, hoi, warnEvents, h2]

/-! The specification claims. -/

/-- C1: when every row's category_department_id is among the departments
table's department_id values, transform_categories returns the table
unchanged; when some row's reference is absent it fails with a
ValidationFailed for categories; and a run whose categories table has such
a dangling reference writes no table at all. -/
theorem claim_C1 (df : List CategoryRow) (deps : List DepartmentRow) (inp : PipelineInput) :
    ((∀ r ∈ df, r.category_department_id ∈ deps.map DepartmentRow.department_id) →
      transform_categories df deps = .ok df) ∧
    ((∃ r ∈ df, r.category_department_id ∉ deps.map DepartmentRow.department_id) →
      transform_categories df deps =
        .error ⟨"categories", "Hay category_department_id que no existen en departments."⟩) ∧
    ((∃ r ∈ inp.categories, r.category_department_id ∉
        inp.departments.map DepartmentRow.department_id) →
      ∀ t, Event.wrote t ∉ runTrace inp) := by
  refine ⟨transform_categories_eq_ok df deps, transform_categories_eq_error df deps, ?_⟩
  intro h t ht
  rcases runTrace_shape inp with ⟨pre, err, htr, hw, _, _⟩ |
    ⟨pre, c, cu, p, o, oi, htr, hw, _, _, hcat, _, _, _, _⟩
  · rw [htr] at ht
    rcases List.mem_append.mp ht with h1 | h1
    · exact hw t h1
    · simp at h1
  · have herr := transform_categories_eq_error inp.categories inp.departments h
    rw [herr] at hcat
    exact Except.noConfusion hcat

/-- Witness for C1 at concrete tables: a valid reference passes the table
through unchanged, a dangling reference yields the categories failure, and
a run with the dangling reference writes nothing. -/
theorem claim_C1_witness :
    transform_categories [⟨10, 1⟩] [⟨1, "Tech"⟩] = .ok [⟨10, 1⟩] ∧
    transform_categories [⟨10, 2⟩] [⟨1, "Tech"⟩] =
      .error ⟨"categories", "Hay category_department_id que no existen en departments."⟩ ∧
    Event.wrote "departments" ∉ runTrace ⟨[⟨1, "Tech"⟩], [⟨10, 2⟩], [], [], [], []⟩ :=
  ⟨(claim_C1 [⟨10, 1⟩] [⟨1, "Tech"⟩] ⟨[], [], [], [], [], []⟩).1 (by decide),
   (claim_C1 [⟨10, 2⟩] [⟨1, "Tech"⟩] ⟨[], [], [], [], [], []⟩).2.1 (by decide),
   (claim_C1 [] [] ⟨[⟨1, "Tech"⟩], [⟨10, 2⟩], [], [], [], []⟩).2.2 (by decide) "departments"⟩

/-- C2: under passing referential checks, one mismatched subtotal makes the
transformer overwrite the subtotal of every row with quantity times price,
a fully matching table is returned unchanged, and every successful output
row satisfies the subtotal equation. -/
theorem claim_C2 (df : List OrderItemRow) (ords : List OrderRowT) (prods : List ProductRow)
    (hord : ∀ r ∈ df, r.order_item_order_id ∈ ords.map OrderRowT.order_id)
    (hprod : ∀ r ∈ df, r.order_item_product_id ∈ prods.map ProductRow.product_id) :
    ((∃ r ∈ df, r.order_item_subtotal ≠
        r.order_item_quantity * r.order_item_product_price) →
      transform_order_items df ords prods = .ok (df.map recomputeSubtotal)) ∧
    ((∀ r ∈ df, r.order_item_subtotal =
        r.order_item_quantity * r.order_item_product_price) →
      transform_order_items df ords prods = .ok df) ∧
    (∀ out, transform_order_items df ords prods = .ok out →
      ∀ r ∈ out, r.order_item_subtotal =
        r.order_item_quantity * r.order_item_product_price) :=
  ⟨transform_order_items_eq_ok_recompute df ords prods hord hprod,
   transform_order_items_eq_ok_match df ords prods hord hprod,
   transform_order_items_ok_elim df ords prods⟩

/-- Witness for C2: with one row mismatched (subtotal 7 instead of 6) and
one row matched, both rows are overwritten with the computed subtotal. -/
theorem claim_C2_witness :
    transform_order_items [⟨1, 1, 2, 3, 6⟩, ⟨1, 1, 2, 3, 7⟩] [⟨1, some 0, 1⟩] [⟨1, 1⟩] =
      .ok [⟨1, 1, 2, 3, 6⟩, ⟨1, 1, 2, 3, 6⟩] :=
  (claim_C2 [⟨1, 1, 2, 3, 6⟩, ⟨1, 1, 2, 3, 7⟩] [⟨1, some 0, 1⟩] [⟨1, 1⟩]
    (by decide) (by decide)).1 (by decide)

/-- C3: in every run the trace splits into a write-free phase followed by a
write-only phase, writes occur only when all six tables were transformed,
any failure event excludes all write events, and in particular a null
customer_fname in the customers input prevents every write. -/
theorem claim_C3 (inp : PipelineInput) :
    (∃ pre post, runTrace inp = pre ++ post ∧
      (∀ t, Event.wrote t ∉ pre) ∧
      (∀ e ∈ post, ∃ t, e = Event.wrote t) ∧
      (post ≠ [] → ∀ t ∈ load_order, Event.transformed t ∈ pre)) ∧
    (∀ err, Event.failed err ∈ runTrace inp → ∀ t, Event.wrote t ∉ runTrace inp) ∧
    ((∃ r ∈ inp.customers, r.customer_fname = none) →
      ∀ t, Event.wrote t ∉ runTrace inp) := by
  rcases runTrace_shape inp with ⟨pre, err, htr, hw, hf, _⟩ |
    ⟨pre, c, cu, p, o, oi, htr, hw, hf, hts, _, hcus, _, _, _⟩
  · have hnw : ∀ t, Event.wrote t ∉ runTrace inp := by
      intro t ht
      rw [htr] at ht
      rcases List.mem_append.mp ht with h1 | h1
      · exact hw t h1
      · simp at h1
    refine ⟨⟨pre ++ [Event.failed err], [], by rw [htr, List.append_nil], ?_, by simp,
      by simp⟩, fun _ _ => hnw, fun _ => hnw⟩
    rw [← htr]
    exact hnw
  · refine ⟨⟨pre, load_order.map Event.wrote, htr, hw, ?_, fun _ => hts⟩, ?_, ?_⟩
    · intro e he
      simp only [List.mem_map] at he
      obtain ⟨t, _, rfl⟩ := he
      exact ⟨t, rfl⟩
    · intro err hmem
      exfalso
      rw [htr] at hmem
      rcases List.mem_append.mp hmem with h1 | h1
      · exact hf err h1
      · simp at h1
    · intro hnull
      exfalso
      obtain ⟨r, hr, hn⟩ := hnull
      have herr := transform_customers_eq_error inp.customers ⟨r, hr, Or.inl hn⟩
      rw [herr] at hcus
      exact Except.noConfusion hcus

/-- Witness for C3 at a concrete input with a null customer_fname: the run
writes no table. -/
theorem claim_C3_witness :
    Event.wrote "customers" ∉
      runTrace ⟨[], [], [⟨1, some "a@b.c", none, some "Doe"⟩], [], [], []⟩ :=
  (claim_C3 ⟨[], [], [⟨1, some "a@b.c", none, some "Doe"⟩], [], [], []⟩).2.2
    (by decide) "customers"

/-- C4: the orders transformer first coerces dates and fails with the
orders-table ValidationFailed as soon as some coerced date is null,
regardless of the customer references; only when all dates are valid does
it check order_customer_id membership, succeeding or failing accordingly;
and a run whose orders table has an unparseable or null date writes no
table. -/
theorem claim_C4 (df : List OrderRow) (cust : List CustomerRow) (inp : PipelineInput) :
    ((∃ r ∈ df, coerceDate r.order_date = none) →
      transform_orders df cust = .error ⟨"orders", "Hay valores inválidos en order_date."⟩) ∧
    ((∀ r ∈ df, (coerceDate r.order_date).isSome) →
      ((∀ r ∈ df, r.order_customer_id ∈ cust.map CustomerRow.customer_id) →
        transform_orders df cust = .ok (df.map coerceOrderRow)) ∧
      ((∃ r ∈ df, r.order_customer_id ∉ cust.map CustomerRow.customer_id) →
        transform_orders df cust =
          .error ⟨"orders", "Hay order_customer_id que no existen en customers."⟩)) ∧
    ((∃ r ∈ inp.orders, coerceDate r.order_date = none) →
      ∀ t, Event.wrote t ∉ runTrace inp) := by
  refine ⟨transform_orders_eq_error_date df cust,
    fun hdate => ⟨transform_orders_eq_ok df cust hdate,
      transform_orders_eq_error_cust df cust hdate⟩, ?_⟩
  intro hbad t ht
  rcases runTrace_shape inp with ⟨pre, err, htr, hw, _, _⟩ |
    ⟨pre, c, cu, p, o, oi, htr, hw, _, _, _, _, _, hords, _⟩
  · rw [htr] at ht
    rcases List.mem_append.mp ht with h1 | h1
    · exact hw t h1
    · simp at h1
  · have herr := transform_orders_eq_error_date inp.orders cu hbad
    rw [herr] at hords
    exact Except.noConfusion hords

/-- Witness for C4: an unparseable date string fails with the orders
failure before the (dangling) customer check is consulted, and a run with
that orders table writes nothing. -/
theorem claim_C4_witness :
    transform_orders [⟨1, DateCell.invalid "not-a-date", 99⟩] [] =
      .error ⟨"orders", "Hay valores inválidos en order_date."⟩ ∧
    Event.wrote "orders" ∉
      runTrace ⟨[], [], [], [], [⟨1, DateCell.invalid "not-a-date", 99⟩], []⟩ :=
  ⟨(claim_C4 [⟨1, DateCell.invalid "not-a-date", 99⟩] [] ⟨[], [], [], [], [], []⟩).1
      (by decide),
   (claim_C4 [] [] ⟨[], [], [], [], [⟨1, DateCell.invalid "not-a-date", 99⟩], []⟩).2.2
      (by decide) "orders"⟩

/-- C5: the customers transformer is idempotent on its successful outputs:
after one application every customer_email is already lowercase and the
three required fields are non-null, so a second application returns the
same table. -/
theorem claim_C5 (df out : List CustomerRow) (h : transform_customers df = .ok out) :
    transform_customers out = .ok out ∧
    (∀ r ∈ out, r.customer_email.map String.toLower = r.customer_email ∧
      r.customer_fname.isSome ∧ r.customer_lname.isSome ∧ r.customer_email.isSome) := by
  obtain ⟨hout, hfields⟩ := transform_customers_ok_elim df out h
  have hemail : ∀ r ∈ out, r.customer_email.map String.toLower = r.customer_email := by
    intro r hr
    rw [hout] at hr
    simp only [List.mem_map] at hr
    obtain ⟨s, hs, rfl⟩ := hr
    simp only [lowerEmail]
    cases s.customer_email with
    | none => rfl
    | some e => simp [string_toLower_idem]
  have hid : out.map lowerEmail = out := by
    have hrow : ∀ r ∈ out, lowerEmail r = r := by
      intro r hr
      simp only [lowerEmail]
      rw [hemail r hr]
    rw [List.map_congr_left hrow, List.map_id']
  refine ⟨?_, fun r hr =>
    ⟨hemail r hr, (hfields r hr).1, (hfields r hr).2.1, (hfields r hr).2.2⟩⟩
  rw [transform_customers_eq_ok out hfields, hid]

theorem toLower_A_eq : String.toLower "A" = "a" := by
  show String.map Char.toLower "A" = "a"
  rw [String.map_eq]
  decide

/-- Witness for C5: a concrete uppercase email is lowered once and a second
application returns the table unchanged. -/
theorem claim_C5_witness :
    transform_customers [⟨1, some "a", some "J", some "D"⟩] =
      .ok [⟨1, some "a", some "J", some "D"⟩] :=
  (claim_C5 [⟨1, some "A", some "J", some "D"⟩] [⟨1, some "a", some "J", some "D"⟩]
    (by rw [transform_customers_eq_ok _ (by decide)]; simp [lowerEmail, toLower_A_eq])).1

/-- C6: the departments transformer always returns its table unchanged and
never fails: duplicate department_name values only add a warning event to
the run, and no run failure ever carries the departments table name. -/
theorem claim_C6 (df : List DepartmentRow) (inp : PipelineInput) :
    (transform_departments df).1 = df ∧
    (duplicatedAny (inp.departments.map DepartmentRow.department_name) = true →
      Event.warned "departments" ∈ runTrace inp) ∧
    (∀ err, Event.failed err ∈ runTrace inp → err.table ≠ "departments") := by
  refine ⟨rfl, warned_mem_runTrace inp, ?_⟩
  intro err hmem
  rcases runTrace_shape inp with ⟨pre, err2, htr, _, hf, hname⟩ |
    ⟨pre, c, cu, p, o, oi, htr, _, hf, _, _, _, _, _, _⟩
  · rw [htr] at hmem
    rcases List.mem_append.mp hmem with h1 | h1
    · exact absurd h1 (hf err)
    · simp only [List.mem_singleton] at h1
      injection h1 with h2
      rw [h2]
      exact hname
  · exfalso
    rw [htr] at hmem
    rcases List.mem_append.mp hmem with h1 | h1
    · exact hf err h1
    · simp at h1

/-- Witness for C6: duplicated department names pass through unchanged and
produce a warning event in a concrete run. -/
theorem claim_C6_witness :
    (transform_departments [⟨1, "Apparel"⟩, ⟨2, "Apparel"⟩]).1 =
      [⟨1, "Apparel"⟩, ⟨2, "Apparel"⟩] ∧
    Event.warned "departments" ∈
      runTrace ⟨[⟨1, "Apparel"⟩, ⟨2, "Apparel"⟩], [], [], [], [], []⟩ :=
  ⟨(claim_C6 [⟨1, "Apparel"⟩, ⟨2, "Apparel"⟩]
      ⟨[⟨1, "Apparel"⟩, ⟨2, "Apparel"⟩], [], [], [], [], []⟩).1,
   (claim_C6 []
      ⟨[⟨1, "Apparel"⟩, ⟨2, "Apparel"⟩], [], [], [], [], []⟩).2.1 (by decide)⟩

/-- C7: a run without failure events writes exactly the six tables of
load_order, each once, in dependency order. -/
theorem claim_C7 (inp : PipelineInput) (h : (runTrace inp).any isFailedEv = false) :
    writesOf (runTrace inp) = load_order ∧ load_order.Nodup := by
  rcases runTrace_shape inp with ⟨pre, err, htr, _, _, _⟩ |
    ⟨pre, c, cu, p, o, oi, htr, hw, _, _, _, _, _, _, _⟩
  · exfalso
    rw [htr] at h
    simp [isFailedEv] at h
  · constructor
    · rw [htr, writesOf, List.filterMap_append]
      have h1 := writesOf_eq_nil pre hw
      rw [writesOf] at h1
      have h2 := writesOf_map_wrote load_order
      rw [writesOf] at h2
      rw [h1, h2, List.nil_append]
    · decide

/-- Witness for C7: the run on six empty tables succeeds and writes the
tables in load_order. -/
theorem claim_C7_witness :
    writesOf (runTrace ⟨[], [], [], [], [], []⟩) = load_order ∧ load_order.Nodup :=
  claim_C7 ⟨[], [], [], [], [], []⟩ (by decide)

/-- C8: in the order_items transformer the referential checks run before
the subtotal logic: a dangling order_item_order_id fails with the orders
reference error, and with all order references valid a dangling
order_item_product_id fails with the products reference error; in both
cases the result is the error, not a table with recomputed subtotals. -/
theorem claim_C8 (df : List OrderItemRow) (ords : List OrderRowT) (prods : List ProductRow) :
    ((∃ r ∈ df, r.order_item_order_id ∉ ords.map OrderRowT.order_id) →
      transform_order_items df ords prods =
        .error ⟨"order_items", "Hay order_item_order_id que no existen en orders."⟩) ∧
    ((∀ r ∈ df, r.order_item_order_id ∈ ords.map OrderRowT.order_id) →
      (∃ r ∈ df, r.order_item_product_id ∉ prods.map ProductRow.product_id) →
      transform_order_items df ords prods =
        .error ⟨"order_items", "Hay order_item_product_id que no existen en products."⟩) :=
  ⟨transform_order_items_eq_error_order df ords prods,
   fun hord => transform_order_items_eq_error_product df ords prods hord⟩

/-- Witness for C8: a row with a dangling order reference and a wrong
subtotal produces the referential error, not a recomputed table; same for
a dangling product reference. -/
theorem claim_C8_witness :
    transform_order_items [⟨5, 1, 2, 3, 999⟩] [] [⟨1, 1⟩] =
      .error ⟨"order_items", "Hay order_item_order_id que no existen en orders."⟩ ∧
    transform_order_items [⟨1, 9, 2, 3, 999⟩] [⟨1, some 0, 1⟩] [] =
      .error ⟨"order_items", "Hay order_item_product_id que no existen en products."⟩ :=
  ⟨(claim_C8 [⟨5, 1, 2, 3, 999⟩] [] [⟨1, 1⟩]).1 (by decide),
   (claim_C8 [⟨1, 9, 2, 3, 999⟩] [⟨1, some 0, 1⟩] []).2 (by decide) (by decide)⟩

/-- C9: a null input order_date stays null under coercion, so any orders
table containing one makes transform_orders fail with the orders
ValidationFailed. -/
theorem claim_C9 (df : List OrderRow) (cust : List CustomerRow)
    (h : ∃ r ∈ df, r.order_date = DateCell.null) :
    coerceDate DateCell.null = none ∧
    transform_orders df cust =
      .error ⟨"orders", "Hay valores inválidos en order_date."⟩ := by
  refine ⟨rfl, transform_orders_eq_error_date df cust ?_⟩
  obtain ⟨r, hr, hnull⟩ := h
  exact ⟨r, hr, by rw [hnull]; rfl⟩

/-- Witness for C9: a single row with a null date fails the orders
transformer. -/
theorem claim_C9_witness :
    coerceDate DateCell.null = none ∧
    transform_orders [⟨1, DateCell.null, 1⟩] [] =
      .error ⟨"orders", "Hay valores inválidos en order_date."⟩ :=
  claim_C9 [⟨1, DateCell.null, 1⟩] [] (by decide)

/-- C10: no transformer enforces key uniqueness: a departments table with
a duplicated department_id but distinct names passes transform_departments
without warning or failure, and transform_categories accepts any
categories table whose references hit the (duplicated) id set. -/
theorem claim_C10 (deps : List DepartmentRow) (cats : List CategoryRow)
    (hdupid : ∃ i ∈ deps, ∃ j ∈ deps, i ≠ j ∧ i.department_id = j.department_id)
    (hnames : duplicatedAny (deps.map DepartmentRow.department_name) = false)
    (href : ∀ r ∈ cats, r.category_department_id ∈ deps.map DepartmentRow.department_id) :
    transform_departments deps = (deps, false) ∧
    transform_categories cats deps = .ok cats := by
  refine ⟨?_, transform_categories_eq_ok cats deps href⟩
  rw [transform_departments, hnames]

/-- Witness for C10: department_id 1 appears twice with distinct names; no
warning fires and categories referencing id 1 are accepted. -/
theorem claim_C10_witness :
    transform_departments [⟨1, "A"⟩, ⟨1, "B"⟩] = ([⟨1, "A"⟩, ⟨1, "B"⟩], false) ∧
    transform_categories [⟨10, 1⟩] [⟨1, "A"⟩, ⟨1, "B"⟩] = .ok [⟨10, 1⟩] :=
  claim_C10 [⟨1, "A"⟩, ⟨1, "B"⟩] [⟨10, 1⟩] (by decide) (by decide) (by decide)

end DataPipeline
